import Mathlib

/-!
Verification of the desk auto-booker client (src/book_desk.py).

The program is a sequential HTTP client. We embed its decision logic as pure
Lean functions: every HTTP interaction is made explicit by passing the response
the remote service would give as a parameter (`none` models a transport
exception raised by the request), and each modelled run returns, together with
its result, the trace of HTTP calls it issued. A single run is modelled at one
fixed current instant (the Python code calls `datetime.now` more than once per
run; the model assumes those reads agree, i.e. the run does not straddle a
date boundary). Instants are measured in seconds; calendar dates are epoch
days (1970-01-01 = day 0, a Thursday).
-/

namespace BookDesk

/-- `DESK_RESOURCE_ID` from book_desk.py line 31. -/
def DESK_RESOURCE_ID : String := "3a1b388a-08ec-4e16-acde-cebd64ebc86d"

/-- `TIMEZONE` from book_desk.py line 23. -/
def TIMEZONE : String := "America/New_York"

/-- Default booking times, book_desk.py lines 35-38. -/
def DEFAULT_START_HOUR : Int := 9

def DEFAULT_START_MINUTE : Int := 30

def DEFAULT_END_HOUR : Int := 17

def DEFAULT_END_MINUTE : Int := 30

/-- `DAYS_AHEAD` default, book_desk.py line 65. -/
def DAYS_AHEAD : Int := 7

/-- All-ASCII-digit run to its value; helper for `pyInt`. -/
def digitsVal (ds : List Char) : Nat :=
  ds.foldl (fun a c => a * 10 + (c.toNat - 48)) 0

/-- Models Python `int(s)` on a string: optional surrounding whitespace, an
optional sign, then a nonempty run of ASCII digits; anything else raises
`ValueError`, modelled as `none`. (Digit-group underscores and non-ASCII
digits, which CPython also accepts, are outside the modelled input space.) -/
def pyInt (cs : List Char) : Option Int :=
  let cs := ((cs.dropWhile Char.isWhitespace).reverse.dropWhile Char.isWhitespace).reverse
  match cs with
  | '-' :: ds => if ds ≠ [] ∧ ds.all Char.isDigit then some (-(digitsVal ds : Int)) else none
  | '+' :: ds => if ds ≠ [] ∧ ds.all Char.isDigit then some (digitsVal ds : Int) else none
  | ds => if ds ≠ [] ∧ ds.all Char.isDigit then some (digitsVal ds : Int) else none

/-- Models Python `s.split(sep)` for a single-character separator: the result
is always nonempty, and empty fields are kept (`"".split(":") = [""]`). -/
def pySplit (sep : Char) : List Char → List (List Char)
  | [] => [[]]
  | c :: rest =>
    match pySplit sep rest with
    | [] => [[c]]
    | g :: gs => if c = sep then [] :: g :: gs else (c :: g) :: gs

/-- The body of the `--start-time` branch of `get_booking_times`
(book_desk.py lines 47-53). Python executes `start_hour = int(parts[0])`
before `start_minute = int(parts[1])`, so when the minute raises
`ValueError` the hour assignment has already happened; the bare `except`
then swallows the error (`pass`). -/
def applyStart (st : Int × Int × Int × Int) (v : String) : Int × Int × Int × Int :=
  match st with
  | (sh, sm, eh, em) =>
    match pySplit ':' v.data with
    | [] => (sh, sm, eh, em)
    | p0 :: ps =>
      match pyInt p0 with
      | none => (sh, sm, eh, em)
      | some h =>
        match ps with
        | [] => (h, 0, eh, em)
        | p1 :: _ =>
          match pyInt p1 with
          | none => (h, sm, eh, em)
          | some m => (h, m, eh, em)

/-- The body of the `--end-time` branch of `get_booking_times`
(book_desk.py lines 54-60); same mutation order as `applyStart`. -/
def applyEnd (st : Int × Int × Int × Int) (v : String) : Int × Int × Int × Int :=
  match st with
  | (sh, sm, eh, em) =>
    match pySplit ':' v.data with
    | [] => (sh, sm, eh, em)
    | p0 :: ps =>
      match pyInt p0 with
      | none => (sh, sm, eh, em)
      | some h =>
        match ps with
        | [] => (sh, sm, h, 0)
        | p1 :: _ =>
          match pyInt p1 with
          | none => (sh, sm, h, em)
          | some m => (sh, sm, h, m)

/-- The scan of `for i, arg in enumerate(sys.argv)` in `get_booking_times`:
each argument is inspected with its successor; an option flag in last
position has no value (`i + 1 < len(sys.argv)` fails) and is skipped. -/
def get_booking_times_go (st : Int × Int × Int × Int) : List String → Int × Int × Int × Int
  | [] => st
  | [_] => st
  | a :: b :: rest =>
    let st' :=
      if a = "--start-time" then applyStart st b
      else if a = "--end-time" then applyEnd st b
      else st
    get_booking_times_go st' (b :: rest)

/-- `get_booking_times` (book_desk.py lines 41-62): returns
(start_hour, start_minute, end_hour, end_minute). -/
def get_booking_times (argv : List String) : Int × Int × Int × Int :=
  get_booking_times_go (DEFAULT_START_HOUR, DEFAULT_START_MINUTE, DEFAULT_END_HOUR, DEFAULT_END_MINUTE) argv

/-- The scan in `get_days_ahead` (book_desk.py lines 68-76): the first
`--days-ahead` whose value parses as an int returns it; a `ValueError`
is swallowed and the scan continues. -/
def get_days_ahead_go : List String → Option Int
  | [] => none
  | [_] => none
  | a :: b :: rest =>
    if a = "--days-ahead" then
      match pyInt b.data with
      | some n => some n
      | none => get_days_ahead_go (b :: rest)
    else get_days_ahead_go (b :: rest)

/-- `get_days_ahead` (book_desk.py lines 68-76). -/
def get_days_ahead (argv : List String) : Int :=
  (get_days_ahead_go argv).getD DAYS_AHEAD

example : get_booking_times ["book_desk.py", "--start-time", "10:xx"] = (10, 30, 17, 30) := by decide
example : get_booking_times ["book_desk.py", "--start-time", "9"] = (9, 0, 17, 30) := by decide
example : get_booking_times ["book_desk.py", "--start-time", "xx:15"] = (9, 30, 17, 30) := by decide
example : get_booking_times ["book_desk.py", "--end-time", "18:45"] = (9, 30, 18, 45) := by decide
example : get_days_ahead ["book_desk.py", "--days-ahead", "zz", "--days-ahead", "3"] = 3 := by decide
example : get_days_ahead ["book_desk.py", "--days-ahead", "zz"] = 7 := by decide
example : get_days_ahead ["book_desk.py", "--days-ahead"] = 7 := by decide

/-! ## Token management (book_desk.py lines 82-135) -/

/-- The token record built by `get_tokens` and rebuilt by `try_refresh_token`.
`get_tokens` populates `session_token` and `refresh_token` from the
environment (`os.environ.get` yields `none` for an unset variable) and never
sets `access_token`; only the HTTP-200 branch of `try_refresh_token`
(line 127-131) produces a record with `access_token` present. -/
structure Tokens where
  session_token : String
  refresh_token : Option String := none
  access_token : Option String := none
deriving DecidableEq

/-- The interesting fields of the token-endpoint response body:
`data.get("accessToken")` and the presence of the `"refreshToken"` key
(`none` models an absent key, so that `data.get("refreshToken", old)`
falls back to `old`). -/
structure RefreshData where
  accessToken : Option String := none
  refreshToken : Option String := none
deriving DecidableEq

/-- Python truthiness of an optional string: `None` and `""` are falsy. -/
def strTruthy : Option String → Bool
  | none => false
  | some s => s ≠ ""

/-- `try_refresh_token` (book_desk.py lines 97-135). `resp` is the outcome of
the POST to `/authorization/token`: `none` models a raised transport
exception (caught by the bare `except`), `some (code, data)` an HTTP
response. Only `code = 200` rebuilds the record; every other path returns
the input unchanged, and the function is total (never fatal). -/
def try_refresh_token (tokens : Tokens) (resp : Option (Nat × RefreshData)) : Tokens :=
  if ¬ strTruthy tokens.refresh_token then tokens
  else
    match resp with
    | none => tokens
    | some (code, data) =>
      if code = 200 then
        { session_token := tokens.session_token
          access_token := data.accessToken
          refresh_token :=
            match data.refreshToken with
            | some s => some s
            | none => tokens.refresh_token }
      else tokens

/-- The request headers every later call builds (book_desk.py lines 201-206,
325-329, 398-402, 508-513): the `"token"` header is always
`tokens["session_token"]` and the timezone header is the fixed `TIMEZONE`;
no call site reads `access_token` or `refresh_token`. -/
structure Headers where
  token : String
  timezone : String
deriving DecidableEq

/-- Header construction shared by `create_reservation`,
`check_existing_reservations`, `get_todays_events` and `checkin_reservation`:
`"token": tokens["session_token"]`. -/
def request_headers (tokens : Tokens) : Headers :=
  { token := tokens.session_token, timezone := TIMEZONE }

/-! ## Dates and the booking orchestration (book_desk.py lines 142-373, 578-595) -/

/-- `date.weekday()` for an epoch-day number: day 0 (1970-01-01) was a
Thursday, and Python numbers Monday as 0, so the weekday is `(d + 3) % 7`. -/
def pyWeekday (d : Int) : Int := (d + 3) % 7

/-- `is_weekday` (book_desk.py lines 152-154). -/
def is_weekday (d : Int) : Bool := pyWeekday d < 5

/-- `get_booking_date` (book_desk.py lines 142-149): local today plus the
`--days-ahead` offset, as an epoch-day number. -/
def get_booking_date (today : Int) (argv : List String) : Int :=
  today + get_days_ahead argv

/-- One entry of a returned `items` list's `resources` arrays:
`resource.get("id")` (`none` when the `"id"` key is absent). -/
structure Resource where
  id : Option String := none
deriving DecidableEq

/-- The `reservation` sub-object of a returned event. An absent
`"reservation"` key behaves as `{}` because every access goes through
`.get` with a default, so it is modelled by the all-default record. -/
structure Reservation where
  resources : List Resource := []
  status : Option String := none
  effectiveStartAt : String := ""
deriving DecidableEq

/-- A returned event (`items` element). `startAt`/`effectiveStartAt` model
`.get(..., "")`: an absent key is the empty string. -/
structure Event where
  id : Option String := none
  resources : List Resource := []
  reservation : Reservation := {}
  startAt : String := ""
deriving DecidableEq

/-- The loop `for resource in resources: if resource.get("id") == DESK_RESOURCE_ID`. -/
def resourcesContainDesk (rs : List Resource) : Bool :=
  rs.any fun r => r.id = some DESK_RESOURCE_ID

/-- The per-item test of `check_existing_reservations` (lines 355-369): the
desk id may appear in the flat top-level `resources` list or nested under
`reservation.resources`. -/
def eventMatchesDesk (e : Event) : Bool :=
  resourcesContainDesk e.resources || resourcesContainDesk e.reservation.resources

/-- A response to `GET /reservation/users/me/events`. -/
structure ListResponse where
  status : Nat
  items : List Event := []
deriving DecidableEq

/-- The HTTP calls a run can issue, for call traces. -/
inductive Call
  | listEvents
  | lockResource
  | createReservation
  | checkin
deriving DecidableEq

/-- The remote responses a booking run consumes, in program order:
`listResp1` answers the existing-reservation check made from `main`,
`lockResp` the best-effort lock, `createResp` the create POST (its status
code), and `listResp2` the reconciliation re-check after a 409. `none`
always models a transport exception. -/
structure BookEnv where
  listResp1 : Option ListResponse := none
  lockResp : Option Nat := none
  createResp : Option Nat := none
  listResp2 : Option ListResponse := none
deriving DecidableEq

/-- `check_existing_reservations` (book_desk.py lines 303-373), with the call
trace it issues. On a weekend target date it returns `false` before making
any request (lines 310-312); otherwise it issues the GET and returns whether
a 200 response contains an item matching the desk (in either shape); a
non-200 status or an exception also yields `false`. -/
def check_existing_reservations (booking_date : Int) (resp : Option ListResponse) :
    Bool × List Call :=
  if ¬ is_weekday booking_date then (false, [])
  else
    match resp with
    | none => (false, [Call.listEvents])
    | some r =>
      if r.status = 200 then (r.items.any eventMatchesDesk, [Call.listEvents])
      else (false, [Call.listEvents])

/-- `create_reservation` (book_desk.py lines 157-300), with its call trace.
On a weekend it returns `True` with no request (lines 166-168). Otherwise it
always attempts the lock (outcome ignored, lines 240-253) and then the
create POST: 201 is success; 409 re-runs `check_existing_reservations`
against `listResp2` and returns that verdict (lines 272-289); 401, any other
status, or a transport exception is failure. -/
def create_reservation (booking_date : Int) (env : BookEnv) : Bool × List Call :=
  if ¬ is_weekday booking_date then (true, [])
  else
    match env.createResp with
    | none => (false, [Call.lockResource, Call.createReservation])
    | some code =>
      if code = 201 then (true, [Call.lockResource, Call.createReservation])
      else if code = 409 then
        let recon := check_existing_reservations booking_date env.listResp2
        (recon.1, [Call.lockResource, Call.createReservation] ++ recon.2)
      else if code = 401 then (false, [Call.lockResource, Call.createReservation])
      else (false, [Call.lockResource, Call.createReservation])

/-- The booking branch of `main` (book_desk.py lines 578-595), returning the
process exit status and the full call trace: skip with exit 0 when the
existing-reservation check matches, otherwise create and exit 0 on success,
1 on failure. -/
def run_booking (today : Int) (argv : List String) (env : BookEnv) : Nat × List Call :=
  let bd := get_booking_date today argv
  let c1 := check_existing_reservations bd env.listResp1
  if c1.1 then (0, c1.2)
  else
    let c2 := create_reservation bd env
    (if c2.1 then 0 else 1, c1.2 ++ c2.2)

/-! ## Check-in orchestration (book_desk.py lines 380-537, 566-577)

The check-in window logic parses the event's start timestamp with
`datetime.fromisoformat(start_at.replace("Z", "+00:00"))` and converts it
with `.astimezone(eastern)` before comparing it to `datetime.now(eastern)`.
Both sides of those comparisons are timezone-aware datetimes, so each
comparison is a comparison of absolute instants; we therefore model
timestamps as seconds since the Unix epoch. A timestamp string without a
UTC offset parses to a naive datetime which `.astimezone` interprets in the
host timezone; the script targets GitHub Actions runners, whose clock is
UTC, so the model interprets naive timestamps with offset zero. Fractional
seconds are validated but ignored (the model works at whole-second
precision). -/

/-- Exactly `n` ASCII digits read into a value, returning the rest. -/
def takeDigits : Nat → List Char → Nat → Option (Nat × List Char)
  | 0, cs, acc => some (acc, cs)
  | _ + 1, [], _ => none
  | n + 1, c :: cs, acc =>
    if c.isDigit then takeDigits n cs (acc * 10 + (c.toNat - 48)) else none

/-- Consume one expected character. -/
def expectChar (c : Char) : List Char → Option (List Char)
  | [] => none
  | x :: xs => if x = c then some xs else none

/-- Gregorian leap year, as Python's `calendar`/`datetime` define it. -/
def isLeap (y : Nat) : Bool := (y % 4 = 0 && y % 100 ≠ 0) || y % 400 = 0

/-- Length of a month, for `fromisoformat`'s day-range validation. -/
def daysInMonth (y m : Nat) : Nat :=
  if m = 2 then (if isLeap y then 29 else 28)
  else if m = 4 ∨ m = 6 ∨ m = 9 ∨ m = 11 then 30
  else 31

/-- Epoch-day number of a civil date (proleptic Gregorian), the arithmetic
underlying Python's `datetime` ordinal: 1970-01-01 is day 0. -/
def days_from_civil (y m d : Nat) : Int :=
  let yAdj : Int := if m ≤ 2 then (y : Int) - 1 else (y : Int)
  let era : Int := yAdj / 400
  let yoe : Int := yAdj - era * 400
  let mp : Int := if m > 2 then (m : Int) - 3 else (m : Int) + 9
  let doy : Int := (153 * mp + 2) / 5 + (d : Int) - 1
  let doe : Int := yoe * 365 + yoe / 4 - yoe / 100 + doy
  era * 146097 + doe - 719468

/-- The optional fractional-seconds suffix: `.` followed by one to six
digits, whose value the model discards. -/
def skipFraction : List Char → Option (List Char)
  | '.' :: rest =>
    let ds := rest.takeWhile Char.isDigit
    if 1 ≤ ds.length ∧ ds.length ≤ 6 then some (rest.dropWhile Char.isDigit) else none
  | cs => some cs

/-- The optional `±HH:MM` UTC-offset suffix, in signed seconds; `none` for an
empty remainder means a naive timestamp (modelled as offset zero, see the
section comment) and a malformed suffix fails the whole parse. -/
def parseOffset : List Char → Option Int
  | [] => some 0
  | sign :: rest =>
    if sign = '+' ∨ sign = '-' then
      match takeDigits 2 rest 0 with
      | none => none
      | some (oh, rest) =>
        match expectChar ':' rest with
        | none => none
        | some rest =>
          match takeDigits 2 rest 0 with
          | none => none
          | some (om, rest) =>
            if rest = [] ∧ oh < 24 ∧ om < 60 then
              some ((if sign = '-' then -1 else 1) * ((oh : Int) * 3600 + (om : Int) * 60))
            else none
    else none

/-- The time-of-day and offset part after the `T` separator:
`HH[:MM[:SS[.ffffff]]][±HH:MM]`, in seconds-since-midnight plus offset. -/
def parseTime (cs : List Char) : Option (Int × Int) :=
  match takeDigits 2 cs 0 with
  | none => none
  | some (h, cs) =>
    let minuteArm : Option (Nat × Nat × List Char) :=
      match cs with
      | ':' :: cs' =>
        match takeDigits 2 cs' 0 with
        | none => none
        | some (mi, cs'') =>
          match cs'' with
          | ':' :: cs3 =>
            match takeDigits 2 cs3 0 with
            | none => none
            | some (s, cs4) =>
              match skipFraction cs4 with
              | none => none
              | some cs5 => some (mi, s, cs5)
          | _ => some (mi, 0, cs'')
      | _ => some (0, 0, cs)
    match minuteArm with
    | none => none
    | some (mi, s, rest) =>
      if h ≤ 23 ∧ mi ≤ 59 ∧ s ≤ 59 then
        match parseOffset rest with
        | none => none
        | some off => some ((h : Int) * 3600 + (mi : Int) * 60 + (s : Int), off)
      else none

/-- Models `datetime.fromisoformat` followed by `.astimezone(...)`, as an
absolute instant in seconds since the Unix epoch: `YYYY-MM-DD` with
calendar validation, optionally `T` plus a time of day and UTC offset.
Returns `none` when Python would raise `ValueError`. -/
def fromisoformat (cs : List Char) : Option Int :=
  match takeDigits 4 cs 0 with
  | none => none
  | some (y, cs) =>
    match expectChar '-' cs with
    | none => none
    | some cs =>
      match takeDigits 2 cs 0 with
      | none => none
      | some (mo, cs) =>
        match expectChar '-' cs with
        | none => none
        | some cs =>
          match takeDigits 2 cs 0 with
          | none => none
          | some (d, cs) =>
            if 1 ≤ y ∧ 1 ≤ mo ∧ mo ≤ 12 ∧ 1 ≤ d ∧ d ≤ daysInMonth y mo then
              match cs with
              | [] => some (days_from_civil y mo d * 86400)
              | 'T' :: rest =>
                match parseTime rest with
                | none => none
                | some (tod, off) => some (days_from_civil y mo d * 86400 + tod - off)
              | _ => none
            else none

/-- `start_at.replace("Z", "+00:00")` (book_desk.py line 478). -/
def replaceZ : List Char → List Char
  | [] => []
  | c :: rest =>
    if c = 'Z' then '+' :: '0' :: '0' :: ':' :: '0' :: '0' :: replaceZ rest
    else c :: replaceZ rest

/-- The timestamp parse of book_desk.py line 478, as an absolute instant in
seconds; `none` models the `ValueError` caught at lines 495-496. -/
def parse_start_at (s : String) : Option Int :=
  fromisoformat (replaceZ s.data)

/-- Tri-state result of `checkin_reservation`: Python returns `True`,
`False`, or the string `"early"`. -/
inductive CheckinResult
  | success
  | failure
  | early
deriving DecidableEq

/-- The remote responses a check-in run consumes: `listResp` answers
`get_todays_events`, `checkinResp` the check-in POST (status code);
`none` models a transport exception. -/
structure CheckinEnv where
  listResp : Option ListResponse := none
  checkinResp : Option Nat := none
deriving DecidableEq

/-- `get_todays_events` (book_desk.py lines 380-427): the items of a 200
response; a non-200 status or an exception yields `[]`. -/
def get_todays_events (resp : Option ListResponse) : List Event × List Call :=
  match resp with
  | none => ([], [Call.listEvents])
  | some r => (if r.status = 200 then r.items else [], [Call.listEvents])

/-- The event-matching loop of `checkin_reservation` (lines 444-453): the
first event whose NESTED `reservation.resources` list contains the desk id;
the flat top-level `resources` list is not consulted here. -/
def find_target_event : List Event → Option Event
  | [] => none
  | e :: es =>
    if resourcesContainDesk e.reservation.resources then some e
    else find_target_event es

/-- `valid_statuses` (book_desk.py line 499). -/
def valid_statuses : List String := ["Confirmed", "Checkin", "Pending", "NotConfirmed"]

/-- `start_at = target_event.get("startAt", "") or reservation.get("effectiveStartAt", "")`
(line 462): Python `or` takes the second operand when the first is falsy. -/
def start_at_of (e : Event) : String :=
  if e.startAt ≠ "" then e.startAt else e.reservation.effectiveStartAt

/-- The outcome of the check-in POST itself (book_desk.py lines 519-537):
HTTP 202 is success, any other status or a transport exception is failure. -/
def checkin_post_result (resp : Option Nat) : CheckinResult :=
  match resp with
  | none => CheckinResult.failure
  | some code => if code = 202 then CheckinResult.success else CheckinResult.failure

/-- The window test of book_desk.py lines 476-496: performed only when the
start string is non-empty and parses; `now < window_start` with
`window_start = start − 30min` reports early, a closed window
(`now > window_end`) only logs a warning, and the `ValueError` of a failed
parse is caught, skipping the test. -/
def checkin_is_early (now : Int) (start_at : String) : Bool :=
  if start_at ≠ "" then
    match parse_start_at start_at with
    | some start_s => now < start_s - 30 * 60
    | none => false
  else false

/-- `checkin_reservation` (book_desk.py lines 430-537), at current instant
`now` (seconds): find today's event for the desk (nested shape only);
status `"Active"` is already-checked-in success; then the window test,
then the status-eligibility gate and, if eligible, the check-in POST. -/
def checkin_reservation (now : Int) (env : CheckinEnv) : CheckinResult × List Call :=
  let ge := get_todays_events env.listResp
  let events := ge.1
  let t0 := ge.2
  if events.isEmpty then (CheckinResult.failure, t0)
  else
    match find_target_event events with
    | none => (CheckinResult.failure, t0)
    | some ev =>
      let event_status := ev.reservation.status.getD "Unknown"
      if event_status = "Active" then (CheckinResult.success, t0)
      else if checkin_is_early now (start_at_of ev) then (CheckinResult.early, t0)
      else if valid_statuses.contains event_status then
        (checkin_post_result env.checkinResp, t0 ++ [Call.checkin])
      else (CheckinResult.failure, t0)

/-- The check-in branch of `main` (book_desk.py lines 566-577): `"early"`
and `False` both exit 1, `True` exits 0. -/
def run_checkin (now : Int) (env : CheckinEnv) : Nat × List Call :=
  match checkin_reservation now env with
  | (CheckinResult.early, t) => (1, t)
  | (CheckinResult.success, t) => (0, t)
  | (CheckinResult.failure, t) => (1, t)

example : parse_start_at "2025-06-05T13:30:00.000Z" = some 1749130200 := by decide
example : parse_start_at "2025-06-05T09:30:00-04:00" = some 1749130200 := by decide
example : parse_start_at "garbage" = none := by decide
example : parse_start_at "" = none := by decide

/-! ## Concrete fixtures used by witnesses -/

/-- An event that references the desk only in the flat top-level
`resources` list. -/
def flatDeskEvent : Event := { resources := [{ id := some DESK_RESOURCE_ID }] }

/-- An event that references the desk only in the nested
`reservation.resources` list. -/
def nestedDeskEvent : Event :=
  { reservation := { resources := [{ id := some DESK_RESOURCE_ID }] } }

/-- Booking environment whose first list-events GET already finds the desk
(flat shape). -/
def envC3 : BookEnv := { listResp1 := some { status := 200, items := [flatDeskEvent] } }

/-- Booking environment with an empty first check, 409 on create, and a
reconciliation query finding the caller's own (nested-shape) event. -/
def envC1 : BookEnv :=
  { listResp1 := some { status := 200 }
    createResp := some 409
    listResp2 := some { status := 200, items := [nestedDeskEvent] } }

/-- A concrete token record with both tokens present. -/
def tokensW : Tokens := { session_token := "sess", refresh_token := some "ref" }

/-- A concrete token-endpoint response body that carries an access token
but omits the `"refreshToken"` key. -/
def refreshDataW : RefreshData := { accessToken := some "acc" }

/-- An event for the desk with status `"Active"` (nested shape). -/
def activeEvent : Event :=
  { reservation := { resources := [{ id := some DESK_RESOURCE_ID }], status := some "Active" } }

/-- Check-in environment whose list GET returns the active event. -/
def envC7 : CheckinEnv := { listResp := some { status := 200, items := [activeEvent] } }

/-- Check-in environment whose list GET returns only the flat-shaped event. -/
def envC9 : CheckinEnv := { listResp := some { status := 200, items := [flatDeskEvent] } }

/-- A confirmed desk event whose start string does not parse. -/
def eventC10 : Event :=
  { startAt := "garbage"
    reservation := { resources := [{ id := some DESK_RESOURCE_ID }], status := some "Confirmed" } }

/-- Check-in environment for the unparseable-start witness; the check-in
POST would answer 202. -/
def envC10 : CheckinEnv :=
  { listResp := some { status := 200, items := [eventC10] }, checkinResp := some 202 }

/-- A confirmed desk event starting 2025-06-05T13:30:00Z (instant
1749130200). -/
def eventC2 : Event :=
  { startAt := "2025-06-05T13:30:00.000Z"
    reservation := { resources := [{ id := some DESK_RESOURCE_ID }], status := some "Confirmed" } }

/-- Check-in environment for the window witness; the check-in POST would
answer 202. -/
def envC2 : CheckinEnv :=
  { listResp := some { status := 200, items := [eventC2] }, checkinResp := some 202 }

/-! ## Helper lemmas -/

/-- `pySplit` never returns the empty list (Python `str.split` always
yields at least one field). -/
theorem pySplit_ne_nil (sep : Char) (cs : List Char) : pySplit sep cs ≠ [] := by
  cases cs with
  | nil => simp [pySplit]
  | cons c rest =>
    unfold pySplit
    cases h : pySplit sep rest with
    | nil => simp
    | cons g gs => split_ifs <;> simp

/-- A matched event means today's event list is nonempty. -/
theorem find_target_event_ne_nil {l : List Event} {e : Event}
    (h : find_target_event l = some e) : l.isEmpty = false := by
  cases l with
  | nil => simp [find_target_event] at h
  | cons a as => simp

/-- When no event carries the desk in its nested resource list, the
check-in matcher finds nothing. -/
theorem find_target_event_eq_none {l : List Event}
    (h : ∀ e ∈ l, resourcesContainDesk e.reservation.resources = false) :
    find_target_event l = none := by
  induction l with
  | nil => rfl
  | cons e es ih =>
    have he := h e (by simp)
    simp only [find_target_event, he, Bool.false_eq_true, if_false]
    exact ih fun x hx => h x (by simp [hx])

/-- The check-in POST outcome is never the early marker. -/
theorem checkin_post_result_ne_early (o : Option Nat) :
    checkin_post_result o ≠ CheckinResult.early := by
  rcases o with _ | c
  · simp [checkin_post_result]
  · simp [checkin_post_result]; split_ifs <;> simp

/-- The requests `check_existing_reservations` issues depend only on the
weekday guard: one GET on a weekday, none on a weekend. -/
theorem check_existing_reservations_snd (bd : Int) (resp : Option ListResponse) :
    (check_existing_reservations bd resp).2 =
      if is_weekday bd then [Call.listEvents] else [] := by
  by_cases hw : is_weekday bd = true <;>
    rcases resp with _ | r <;>
      simp [check_existing_reservations, hw, apply_ite]

/-! ## Claims -/

/-- C4: in booking mode, when the target date (local now plus the days-ahead
offset) falls on Saturday (weekday 5) or Sunday (weekday 6), the program
exits 0 and issues no HTTP call at all — in particular no list-events, lock
or create-reservation request. -/
theorem C4_weekend_noop (today : Int) (argv : List String) (env : BookEnv)
    (h : pyWeekday (get_booking_date today argv) = 5 ∨
      pyWeekday (get_booking_date today argv) = 6) :
    run_booking today argv env = (0, []) := by
  have hw : is_weekday (get_booking_date today argv) = false := by
    rcases h with h | h <;> simp [is_weekday, h]
  simp [run_booking, check_existing_reservations, create_reservation, hw]

/-- Witness for C4: booking from Thursday 1970-01-01 (epoch day 0) with
default days-ahead 7 targets epoch day 7... that is a weekday, so use
today = 2 (Saturday 1970-01-03), giving target day 9, a Saturday. -/
theorem C4_weekend_noop_witness :
    (pyWeekday (get_booking_date 2 []) = 5 ∨ pyWeekday (get_booking_date 2 []) = 6) ∧
    run_booking 2 [] {} = (0, []) :=
  ⟨Or.inl (by decide), C4_weekend_noop 2 [] {} (Or.inl (by decide))⟩

/-- C3: in booking mode on a weekday, when the existing-reservation query
returns HTTP 200 with an event whose resource list contains the desk id —
flat at top level or nested under `reservation` — the run exits 0 and its
whole call trace is the single list-events GET: create is never called. -/
theorem C3_existing_reservation_skips_create (today : Int) (argv : List String)
    (env : BookEnv) (r : ListResponse) (e : Event)
    (hwd : is_weekday (get_booking_date today argv) = true)
    (hresp : env.listResp1 = some r) (hstatus : r.status = 200) (he : e ∈ r.items)
    (hmatch : resourcesContainDesk e.resources = true ∨
      resourcesContainDesk e.reservation.resources = true) :
    run_booking today argv env = (0, [Call.listEvents]) := by
  have hany : r.items.any eventMatchesDesk = true :=
    List.any_eq_true.mpr ⟨e, he, by rcases hmatch with h | h <;> simp [eventMatchesDesk, h]⟩
  simp [run_booking, check_existing_reservations, hresp, hstatus, hwd, hany]

/-- Witness for C3 at a concrete weekday run and one flat-shaped event. -/
theorem C3_existing_reservation_skips_create_witness :
    is_weekday (get_booking_date 0 []) = true ∧
    run_booking 0 [] envC3 = (0, [Call.listEvents]) :=
  ⟨by decide,
    C3_existing_reservation_skips_create 0 [] envC3 { status := 200, items := [flatDeskEvent] }
      flatDeskEvent (by decide) rfl rfl (by decide) (Or.inl (by decide))⟩

/-- C1: in booking mode on a weekday, when the first existing-reservation
check finds nothing and the create POST returns HTTP 409, the run re-runs
the existing-reservation check as reconciliation: it exits 0 iff that
re-check finds an event matching the desk, exits 1 iff it does not, and in
either case the whole run issues exactly one create call. -/
theorem C1_conflict_reconciliation (today : Int) (argv : List String) (env : BookEnv)
    (hwd : is_weekday (get_booking_date today argv) = true)
    (hfirst : (check_existing_reservations (get_booking_date today argv) env.listResp1).1 = false)
    (h409 : env.createResp = some 409) :
    ((check_existing_reservations (get_booking_date today argv) env.listResp2).1 = true →
      (run_booking today argv env).1 = 0) ∧
    ((check_existing_reservations (get_booking_date today argv) env.listResp2).1 = false →
      (run_booking today argv env).1 = 1) ∧
    (run_booking today argv env).2.count Call.createReservation = 1 := by
  have hc1t := check_existing_reservations_snd (get_booking_date today argv) env.listResp1
  have hc2t := check_existing_reservations_snd (get_booking_date today argv) env.listResp2
  simp [hwd] at hc1t hc2t
  refine ⟨fun hr => ?_, fun hr => ?_, ?_⟩
  · simp [run_booking, create_reservation, hwd, hfirst, h409, hr]
  · simp [run_booking, create_reservation, hwd, hfirst, h409, hr]
  · simp [run_booking, create_reservation, hwd, hfirst, h409, hc1t, hc2t, List.count_cons]

/-- Witness for C1 at a concrete weekday run whose reconciliation finds the
caller's own reservation. -/
theorem C1_conflict_reconciliation_witness :
    is_weekday (get_booking_date 0 []) = true ∧
    (check_existing_reservations (get_booking_date 0 []) envC1.listResp1).1 = false ∧
    envC1.createResp = some 409 ∧
    (run_booking 0 [] envC1).1 = 0 ∧
    (run_booking 0 [] envC1).2.count Call.createReservation = 1 :=
  ⟨by decide, by decide, rfl,
    (C1_conflict_reconciliation 0 [] envC1 (by decide) (by decide) rfl).1 (by decide),
    (C1_conflict_reconciliation 0 [] envC1 (by decide) (by decide) rfl).2.2⟩

/-- C6: `try_refresh_token` is best-effort and total (never fatal): it
returns the record unchanged when no (truthy) refresh token is present, on
a transport error, and on any non-200 status; on HTTP 200 it installs the
response's access and refresh values, keeping the prior refresh token when
the response omits one, and keeps the session token. -/
theorem C6_token_refresh_best_effort (tokens : Tokens) (resp : Option (Nat × RefreshData)) :
    (strTruthy tokens.refresh_token = false → try_refresh_token tokens resp = tokens) ∧
    (resp = none → try_refresh_token tokens resp = tokens) ∧
    (∀ code data, resp = some (code, data) → code ≠ 200 →
      try_refresh_token tokens resp = tokens) ∧
    (∀ data, strTruthy tokens.refresh_token = true → resp = some (200, data) →
      try_refresh_token tokens resp =
        { session_token := tokens.session_token
          access_token := data.accessToken
          refresh_token :=
            match data.refreshToken with
            | some s => some s
            | none => tokens.refresh_token }) := by
  refine ⟨fun h => by simp [try_refresh_token, h], ?_, ?_, ?_⟩
  · intro h
    subst h
    by_cases ht : strTruthy tokens.refresh_token <;> simp [try_refresh_token, ht]
  · intro code data h hne
    subst h
    by_cases ht : strTruthy tokens.refresh_token <;> simp [try_refresh_token, ht, hne]
  · intro data ht h
    subst h
    simp [try_refresh_token, ht]

/-- Witness for C6: a 200 response omitting `refreshToken` rebuilds the
record keeping the old refresh token; a 503 leaves it unchanged. -/
theorem C6_token_refresh_best_effort_witness :
    try_refresh_token tokensW (some (200, refreshDataW)) =
      { session_token := "sess", access_token := some "acc", refresh_token := some "ref" } ∧
    try_refresh_token tokensW (some (503, refreshDataW)) = tokensW := by
  constructor
  · have h := (C6_token_refresh_best_effort tokensW (some (200, refreshDataW))).2.2.2
      refreshDataW (by decide) rfl
    rw [h]; decide
  · exact (C6_token_refresh_best_effort tokensW (some (503, refreshDataW))).2.2.1
      503 refreshDataW rfl (by decide)

/-- C8: token refresh never changes `session_token` (a successful refresh
stores the new token under the separate `access_token` field), and the
header block every subsequent request builds carries exactly the
environment session token — header construction reads nothing but
`session_token`, so a refresh cannot affect the authentication of any
later call. -/
theorem C8_refresh_preserves_session_token (tokens : Tokens) (resp : Option (Nat × RefreshData)) :
    (try_refresh_token tokens resp).session_token = tokens.session_token ∧
    request_headers (try_refresh_token tokens resp) =
      { token := tokens.session_token, timezone := TIMEZONE } ∧
    (∀ t₁ t₂ : Tokens, t₁.session_token = t₂.session_token →
      request_headers t₁ = request_headers t₂) := by
  have hs : (try_refresh_token tokens resp).session_token = tokens.session_token := by
    by_cases h : strTruthy tokens.refresh_token
    · rcases resp with _ | ⟨code, data⟩
      · simp [try_refresh_token, h]
      · by_cases h2 : code = 200 <;> simp [try_refresh_token, h, h2]
    · simp [try_refresh_token, h]
  exact ⟨hs, by simp [request_headers, hs], fun t₁ t₂ h => by simp [request_headers, h]⟩

/-- Witness for C8 after a concrete successful refresh. -/
theorem C8_refresh_preserves_session_token_witness :
    (try_refresh_token tokensW (some (200, refreshDataW))).session_token = "sess" ∧
    request_headers tokensW =
      request_headers { session_token := "sess", refresh_token := some "other" } :=
  ⟨(C8_refresh_preserves_session_token tokensW (some (200, refreshDataW))).1,
    (C8_refresh_preserves_session_token tokensW (some (200, refreshDataW))).2.2
      tokensW { session_token := "sess", refresh_token := some "other" } rfl⟩

/-- C5 as stated is false: the claim requires a partially malformed
`--start-time`/`--end-time` value to leave BOTH hour and minute at their
defaults, but Python assigns the hour before parsing the minute, so
`--start-time 10:xx` yields 10:30 (hour taken, minute default) and the
bare hour `--start-time 9` yields 9:00, not the 9:30 default. -/
theorem C5_counterexample :
    get_booking_times ["book_desk.py", "--start-time", "10:xx"] = (10, 30, 17, 30) ∧
    get_booking_times ["book_desk.py", "--start-time", "9"] = (9, 0, 17, 30) ∧
    ¬ get_booking_times ["book_desk.py", "--start-time", "10:xx"] =
        (DEFAULT_START_HOUR, DEFAULT_START_MINUTE, DEFAULT_END_HOUR, DEFAULT_END_MINUTE) ∧
    ¬ get_booking_times ["book_desk.py", "--start-time", "9"] =
        (DEFAULT_START_HOUR, DEFAULT_START_MINUTE, DEFAULT_END_HOUR, DEFAULT_END_MINUTE) := by
  refine ⟨by decide, by decide, by decide, by decide⟩

/-- C5 (amended): an invalid `--days-ahead` falls back to the default 7,
and a `--start-time` or `--end-time` value whose HOUR part fails integer
parsing leaves both of its components at their defaults; but a parsed hour
always takes effect — with no minute part the minute becomes 0, with a
malformed minute part only the minute keeps its default, and with a
well-formed minute both are taken. The four start-time conjuncts and the
four end-time conjuncts cover the two code branches (book_desk.py lines
47-53 and 54-60) symmetrically. -/
theorem C5_time_flag_fallback (v w : String) :
    (pyInt (pySplit ':' v.data).headI = none →
      get_booking_times ["book_desk.py", "--start-time", v] =
        (DEFAULT_START_HOUR, DEFAULT_START_MINUTE, DEFAULT_END_HOUR, DEFAULT_END_MINUTE)) ∧
    (∀ hh : Int, pyInt (pySplit ':' v.data).headI = some hh →
      (pySplit ':' v.data).tail = [] →
      get_booking_times ["book_desk.py", "--start-time", v] =
        (hh, 0, DEFAULT_END_HOUR, DEFAULT_END_MINUTE)) ∧
    (∀ hh : Int, ∀ p1 ps, pyInt (pySplit ':' v.data).headI = some hh →
      (pySplit ':' v.data).tail = p1 :: ps → pyInt p1 = none →
      get_booking_times ["book_desk.py", "--start-time", v] =
        (hh, DEFAULT_START_MINUTE, DEFAULT_END_HOUR, DEFAULT_END_MINUTE)) ∧
    (∀ hh mm : Int, ∀ p1 ps, pyInt (pySplit ':' v.data).headI = some hh →
      (pySplit ':' v.data).tail = p1 :: ps → pyInt p1 = some mm →
      get_booking_times ["book_desk.py", "--start-time", v] =
        (hh, mm, DEFAULT_END_HOUR, DEFAULT_END_MINUTE)) ∧
    (pyInt (pySplit ':' v.data).headI = none →
      get_booking_times ["book_desk.py", "--end-time", v] =
        (DEFAULT_START_HOUR, DEFAULT_START_MINUTE, DEFAULT_END_HOUR, DEFAULT_END_MINUTE)) ∧
    (∀ hh : Int, pyInt (pySplit ':' v.data).headI = some hh →
      (pySplit ':' v.data).tail = [] →
      get_booking_times ["book_desk.py", "--end-time", v] =
        (DEFAULT_START_HOUR, DEFAULT_START_MINUTE, hh, 0)) ∧
    (∀ hh : Int, ∀ p1 ps, pyInt (pySplit ':' v.data).headI = some hh →
      (pySplit ':' v.data).tail = p1 :: ps → pyInt p1 = none →
      get_booking_times ["book_desk.py", "--end-time", v] =
        (DEFAULT_START_HOUR, DEFAULT_START_MINUTE, hh, DEFAULT_END_MINUTE)) ∧
    (∀ hh mm : Int, ∀ p1 ps, pyInt (pySplit ':' v.data).headI = some hh →
      (pySplit ':' v.data).tail = p1 :: ps → pyInt p1 = some mm →
      get_booking_times ["book_desk.py", "--end-time", v] =
        (DEFAULT_START_HOUR, DEFAULT_START_MINUTE, hh, mm)) ∧
    (pyInt w.data = none →
      get_days_ahead ["book_desk.py", "--days-ahead", w] = DAYS_AHEAD) := by
  have key : get_booking_times ["book_desk.py", "--start-time", v] =
      applyStart (DEFAULT_START_HOUR, DEFAULT_START_MINUTE, DEFAULT_END_HOUR, DEFAULT_END_MINUTE) v := rfl
  have keyE : get_booking_times ["book_desk.py", "--end-time", v] =
      applyEnd (DEFAULT_START_HOUR, DEFAULT_START_MINUTE, DEFAULT_END_HOUR, DEFAULT_END_MINUTE) v := rfl
  obtain ⟨p0, ps0, hsplit⟩ := List.exists_cons_of_ne_nil (pySplit_ne_nil ':' v.data)
  rw [hsplit]
  refine ⟨?_, ?_, ?_, ?_, ?_, ?_, ?_, ?_, ?_⟩
  · intro h0
    simp only [List.headI] at h0
    rw [key]
    unfold applyStart
    rw [hsplit]
    simp [h0]
  · intro hh h0 htail
    simp only [List.headI] at h0
    simp only [List.tail] at htail
    subst htail
    rw [key]
    unfold applyStart
    rw [hsplit]
    simp [h0]
  · intro hh p1 ps h0 htail h1
    simp only [List.headI] at h0
    simp only [List.tail] at htail
    subst htail
    rw [key]
    unfold applyStart
    rw [hsplit]
    simp [h0, h1]
  · intro hh mm p1 ps h0 htail h1
    simp only [List.headI] at h0
    simp only [List.tail] at htail
    subst htail
    rw [key]
    unfold applyStart
    rw [hsplit]
    simp [h0, h1]
  · intro h0
    simp only [List.headI] at h0
    rw [keyE]
    unfold applyEnd
    rw [hsplit]
    simp [h0]
  · intro hh h0 htail
    simp only [List.headI] at h0
    simp only [List.tail] at htail
    subst htail
    rw [keyE]
    unfold applyEnd
    rw [hsplit]
    simp [h0]
  · intro hh p1 ps h0 htail h1
    simp only [List.headI] at h0
    simp only [List.tail] at htail
    subst htail
    rw [keyE]
    unfold applyEnd
    rw [hsplit]
    simp [h0, h1]
  · intro hh mm p1 ps h0 htail h1
    simp only [List.headI] at h0
    simp only [List.tail] at htail
    subst htail
    rw [keyE]
    unfold applyEnd
    rw [hsplit]
    simp [h0, h1]
  · intro hw
    simp [get_days_ahead, get_days_ahead_go, hw]

/-- Witness for C5 (amended) at `--start-time 7:15`, `--end-time 18:45`,
`--end-time 16:yy` (malformed minute, hour still taken) and
`--days-ahead zz`. -/
theorem C5_time_flag_fallback_witness :
    get_booking_times ["book_desk.py", "--start-time", "7:15"] = (7, 15, 17, 30) ∧
    get_booking_times ["book_desk.py", "--end-time", "18:45"] = (9, 30, 18, 45) ∧
    get_booking_times ["book_desk.py", "--end-time", "16:yy"] = (9, 30, 16, 30) ∧
    get_days_ahead ["book_desk.py", "--days-ahead", "zz"] = 7 :=
  ⟨(C5_time_flag_fallback "7:15" "zz").2.2.2.1 7 15 ['1', '5'] []
      (by decide) (by decide) (by decide),
    (C5_time_flag_fallback "18:45" "zz").2.2.2.2.2.2.2.1 18 45 ['4', '5'] []
      (by decide) (by decide) (by decide),
    (C5_time_flag_fallback "16:yy" "zz").2.2.2.2.2.2.1 16 ['y', 'y'] []
      (by decide) (by decide) (by decide),
    (C5_time_flag_fallback "7:15" "zz").2.2.2.2.2.2.2.2 (by decide)⟩

/-- C7: when the matched event's status is `"Active"`, check-in reports
already-checked-in success with no check-in POST (the trace is just the
list GET), for every current instant and start time, and the process
exits 0. -/
theorem C7_active_already_checked_in (now : Int) (env : CheckinEnv) (r : ListResponse)
    (e : Event)
    (hresp : env.listResp = some r) (hstatus : r.status = 200)
    (hfind : find_target_event r.items = some e)
    (hactive : e.reservation.status = some "Active") :
    checkin_reservation now env = (CheckinResult.success, [Call.listEvents]) ∧
    run_checkin now env = (0, [Call.listEvents]) := by
  have hne := find_target_event_ne_nil hfind
  have h1 : checkin_reservation now env = (CheckinResult.success, [Call.listEvents]) := by
    simp [checkin_reservation, get_todays_events, hresp, hstatus, hne, hfind, hactive]
  exact ⟨h1, by simp [run_checkin, h1]⟩

/-- Witness for C7 with a concrete active reservation. -/
theorem C7_active_already_checked_in_witness :
    checkin_reservation 0 envC7 = (CheckinResult.success, [Call.listEvents]) ∧
    run_checkin 0 envC7 = (0, [Call.listEvents]) :=
  C7_active_already_checked_in 0 envC7 { status := 200, items := [activeEvent] }
    activeEvent rfl rfl (by decide) rfl

/-- C9: the check-in matcher reads only the nested `reservation.resources`
list, so when every event carries the desk id only in the flat top-level
`resources` field, check-in fails ("no reservation found") with no
check-in POST and exit 1 — although the booking-mode existing-reservation
check would match the very same response. -/
theorem C9_checkin_matches_nested_only (now : Int) (env : CheckinEnv) (r : ListResponse)
    (bd : Int)
    (hresp : env.listResp = some r) (hstatus : r.status = 200)
    (hnonested : ∀ e ∈ r.items, resourcesContainDesk e.reservation.resources = false)
    (hflat : ∃ e ∈ r.items, resourcesContainDesk e.resources = true)
    (hwd : is_weekday bd = true) :
    checkin_reservation now env = (CheckinResult.failure, [Call.listEvents]) ∧
    run_checkin now env = (1, [Call.listEvents]) ∧
    (check_existing_reservations bd (some r)).1 = true := by
  obtain ⟨e, he, hm⟩ := hflat
  have hne : r.items.isEmpty = false := by
    cases hri : r.items with
    | nil => rw [hri] at he; simp at he
    | cons a as => simp [hri]
  have hnone := find_target_event_eq_none hnonested
  have h1 : checkin_reservation now env = (CheckinResult.failure, [Call.listEvents]) := by
    simp [checkin_reservation, get_todays_events, hresp, hstatus, hne, hnone]
  have hany : r.items.any eventMatchesDesk = true :=
    List.any_eq_true.mpr ⟨e, he, by simp [eventMatchesDesk, hm]⟩
  exact ⟨h1, by simp [run_checkin, h1],
    by simp [check_existing_reservations, hwd, hstatus, hany]⟩

/-- Witness for C9: one flat-shaped event, a weekday booking date. -/
theorem C9_checkin_matches_nested_only_witness :
    checkin_reservation 0 envC9 = (CheckinResult.failure, [Call.listEvents]) ∧
    run_checkin 0 envC9 = (1, [Call.listEvents]) ∧
    (check_existing_reservations 0 (some { status := 200, items := [flatDeskEvent] })).1 = true :=
  C9_checkin_matches_nested_only 0 envC9 { status := 200, items := [flatDeskEvent] } 0
    rfl rfl (by decide) ⟨flatDeskEvent, by decide, by decide⟩ (by decide)

/-- C10: when the matched event's start string is empty (absent) or does
not parse, the window computation is skipped — the parse error is caught,
the early outcome is unreachable — and the run goes straight to the
status-eligibility gate: the check-in POST is attempted exactly when the
status is one of Confirmed, Checkin, Pending, NotConfirmed. -/
theorem C10_unparseable_start_skips_window (now : Int) (env : CheckinEnv)
    (r : ListResponse) (e : Event)
    (hresp : env.listResp = some r) (hstatus : r.status = 200)
    (hfind : find_target_event r.items = some e)
    (hnotactive : e.reservation.status.getD "Unknown" ≠ "Active")
    (hstart : start_at_of e = "" ∨ parse_start_at (start_at_of e) = none) :
    (checkin_reservation now env).1 ≠ CheckinResult.early ∧
    checkin_reservation now env =
      (if valid_statuses.contains (e.reservation.status.getD "Unknown") then
        (checkin_post_result env.checkinResp, [Call.listEvents, Call.checkin])
      else (CheckinResult.failure, [Call.listEvents])) := by
  have hne := find_target_event_ne_nil hfind
  have hearly : checkin_is_early now (start_at_of e) = false := by
    rcases hstart with h | h
    · simp [checkin_is_early, h]
    · by_cases h0 : start_at_of e = "" <;> simp [checkin_is_early, h0, h]
  have h2 : checkin_reservation now env =
      (if valid_statuses.contains (e.reservation.status.getD "Unknown") then
        (checkin_post_result env.checkinResp, [Call.listEvents, Call.checkin])
      else (CheckinResult.failure, [Call.listEvents])) := by
    by_cases hv : valid_statuses.contains (e.reservation.status.getD "Unknown") <;>
      simp [checkin_reservation, get_todays_events, hresp, hstatus, hne, hfind,
        hnotactive, hearly, hv]
  refine ⟨?_, h2⟩
  rw [h2]
  split_ifs with hv
  · exact checkin_post_result_ne_early env.checkinResp
  · simp

/-- Witness for C10: an unparseable start string and an eligible status
lead to an attempted (and here successful) check-in POST. -/
theorem C10_unparseable_start_skips_window_witness :
    (checkin_reservation 5 envC10).1 ≠ CheckinResult.early ∧
    checkin_reservation 5 envC10 = (CheckinResult.success, [Call.listEvents, Call.checkin]) := by
  have h := C10_unparseable_start_skips_window 5 envC10
    { status := 200, items := [eventC10] } eventC10 rfl rfl (by decide) (by decide)
    (Or.inr (by decide))
  exact ⟨h.1, by rw [h.2]; decide⟩

/-- C2: with a parseable start time `t` and a non-Active status, a current
instant strictly before `t` minus 30 minutes yields the distinct early
outcome with no check-in POST and process exit 1; from `t − 30min` onward
(including past `t + 30min`, where the code only logs a warning) the run
proceeds to the status-eligibility gate and, when eligible, the check-in
POST. -/
theorem C2_checkin_window (now : Int) (env : CheckinEnv) (r : ListResponse) (e : Event)
    (t : Int)
    (hresp : env.listResp = some r) (hstatus : r.status = 200)
    (hfind : find_target_event r.items = some e)
    (hnotactive : e.reservation.status.getD "Unknown" ≠ "Active")
    (hparse : parse_start_at (start_at_of e) = some t) :
    (now < t - 30 * 60 →
      checkin_reservation now env = (CheckinResult.early, [Call.listEvents]) ∧
      run_checkin now env = (1, [Call.listEvents])) ∧
    (t - 30 * 60 ≤ now →
      checkin_reservation now env =
        (if valid_statuses.contains (e.reservation.status.getD "Unknown") then
          (checkin_post_result env.checkinResp, [Call.listEvents, Call.checkin])
        else (CheckinResult.failure, [Call.listEvents]))) := by
  have hne := find_target_event_ne_nil hfind
  have hse : start_at_of e ≠ "" := by
    intro h0
    rw [h0] at hparse
    have hnone : parse_start_at "" = none := by decide
    rw [hnone] at hparse
    exact Option.noConfusion hparse
  constructor
  · intro hlt
    have hearly : checkin_is_early now (start_at_of e) = true := by
      simp [checkin_is_early, hse, hparse]
      omega
    have h1 : checkin_reservation now env = (CheckinResult.early, [Call.listEvents]) := by
      simp [checkin_reservation, get_todays_events, hresp, hstatus, hne, hfind,
        hnotactive, hearly]
    exact ⟨h1, by simp [run_checkin, h1]⟩
  · intro hge
    have hearly : checkin_is_early now (start_at_of e) = false := by
      simp [checkin_is_early, hse, hparse]
      omega
    by_cases hv : valid_statuses.contains (e.reservation.status.getD "Unknown") <;>
      simp [checkin_reservation, get_todays_events, hresp, hstatus, hne, hfind,
        hnotactive, hearly, hv]

/-- Witness for C2: the event starts at instant 1749130200; one hour before
it the run is early and exits 1, ten minutes before it the run attempts
check-in and succeeds. -/
theorem C2_checkin_window_witness :
    checkin_reservation 1749126600 envC2 = (CheckinResult.early, [Call.listEvents]) ∧
    run_checkin 1749126600 envC2 = (1, [Call.listEvents]) ∧
    checkin_reservation 1749129600 envC2 = (CheckinResult.success, [Call.listEvents, Call.checkin]) := by
  have hearly := (C2_checkin_window 1749126600 envC2 { status := 200, items := [eventC2] }
    eventC2 1749130200 rfl rfl (by decide) (by decide) (by decide)).1 (by decide)
  have hlate := (C2_checkin_window 1749129600 envC2 { status := 200, items := [eventC2] }
    eventC2 1749130200 rfl rfl (by decide) (by decide) (by decide)).2 (by decide)
  exact ⟨hearly.1, hearly.2, by rw [hlate]; decide⟩

end BookDesk
